import Mathlib

/-!
# Verification of the inventory-management backend (DDD monolith)

Shallow embedding of the domain layer of the repository
`tcc-monolito-ddd-fastapi-estoque` and proofs about the claims of its
specification.  Python integers are modelled as `Int`; raising an
exception is modelled as returning an error value; mutators on entities
take the entity and return the updated entity paired with an optional
error (in the source every raise happens before any field assignment, so
on an error the returned entity is the unchanged input).  Timestamps
(`datetime.utcnow()`) are modelled by passing the current clock value
explicitly as a `Nat`.
-/

deriving instance DecidableEq for Except

/-- The domain exception taxonomy of
`src/shared/domain/exceptions/base.py` restricted to the two kinds the
verified operations raise. -/
inductive DomainError where
  | validation (msg : String)
  | businessRule (msg : String)
deriving DecidableEq, Repr

/-- `TipoUnidadeMedida` enumeration from
`src/produto/domain/value_objects/unidade_medida.py`. -/
inductive TipoUnidadeMedida where
  | UN | KG | G | L | ML | M | CM | M2 | M3 | CX | PCT | FD
deriving DecidableEq, Repr

/-- The `EstoqueProduto` entity of
`src/estoque/domain/entities/estoque_produto.py` (the `produto_id` and
`id` fields play no role in the verified behaviour and are omitted;
`atualizado_em` is an abstract clock value). -/
structure EstoqueProduto where
  quantidade_atual : Int
  quantidade_reservada : Int
  nivel_minimo : Int
  unidade_medida : TipoUnidadeMedida
  atualizado_em : Nat
deriving DecidableEq, Repr

namespace EstoqueProduto

/-- `EstoqueProduto.__init__`: the validation sequence of the
constructor, returning the constructed entity or the raised
`ValidationException`. -/
def init (quantidade_atual quantidade_reservada nivel_minimo : Int)
    (unidade_medida : TipoUnidadeMedida) (now : Nat) :
    Except DomainError EstoqueProduto :=
  if quantidade_atual < 0 then
    .error (.validation "Current quantity cannot be negative")
  else if quantidade_reservada < 0 then
    .error (.validation "Reserved quantity cannot be negative")
  else if nivel_minimo < 0 then
    .error (.validation "Minimum level cannot be negative")
  else if quantidade_reservada > quantidade_atual then
    .error (.validation "Reserved quantity cannot exceed current quantity")
  else
    .ok { quantidade_atual := quantidade_atual,
          quantidade_reservada := quantidade_reservada,
          nivel_minimo := nivel_minimo,
          unidade_medida := unidade_medida,
          atualizado_em := now }

/-- `quantidade_disponivel` property: current minus reserved. -/
def quantidade_disponivel (e : EstoqueProduto) : Int :=
  e.quantidade_atual - e.quantidade_reservada

/-- `adicionar_estoque(quantidade, motivo="")`. -/
def adicionar_estoque (e : EstoqueProduto) (quantidade : Int) (now : Nat) :
    EstoqueProduto × Option DomainError :=
  if quantidade ≤ 0 then
    (e, some (.validation "Quantity to add must be positive"))
  else
    ({ e with quantidade_atual := e.quantidade_atual + quantidade,
              atualizado_em := now }, none)

/-- `remover_estoque(quantidade, motivo="")`. -/
def remover_estoque (e : EstoqueProduto) (quantidade : Int) (now : Nat) :
    EstoqueProduto × Option DomainError :=
  if quantidade ≤ 0 then
    (e, some (.validation "Quantity to remove must be positive"))
  else if quantidade > e.quantidade_disponivel then
    (e, some (.businessRule ("Insufficient available stock. Available: " ++
        toString e.quantidade_disponivel ++ ", Requested: " ++ toString quantidade)))
  else
    ({ e with quantidade_atual := e.quantidade_atual - quantidade,
              atualizado_em := now }, none)

/-- `liberar_reserva(quantidade)`. -/
def liberar_reserva (e : EstoqueProduto) (quantidade : Int) (now : Nat) :
    EstoqueProduto × Option DomainError :=
  if quantidade ≤ 0 then
    (e, some (.validation "Quantity to release must be positive"))
  else if quantidade > e.quantidade_reservada then
    (e, some (.businessRule ("Cannot release more than reserved. Reserved: " ++
        toString e.quantidade_reservada ++ ", Requested: " ++ toString quantidade)))
  else
    ({ e with quantidade_reservada := e.quantidade_reservada - quantidade,
              atualizado_em := now }, none)

/-- `ajustar_estoque(nova_quantidade, motivo="")`. -/
def ajustar_estoque (e : EstoqueProduto) (nova_quantidade : Int) (now : Nat) :
    EstoqueProduto × Option DomainError :=
  if nova_quantidade < 0 then
    (e, some (.validation "New quantity cannot be negative"))
  else if nova_quantidade < e.quantidade_reservada then
    (e, some (.businessRule ("New quantity cannot be less than reserved quantity. Reserved: " ++
        toString e.quantidade_reservada ++ ", New: " ++ toString nova_quantidade)))
  else
    ({ e with quantidade_atual := nova_quantidade, atualizado_em := now }, none)

/-- `update_minimum_level(nivel_minimo)`. -/
def update_minimum_level (e : EstoqueProduto) (nivel_minimo : Int) (now : Nat) :
    EstoqueProduto × Option DomainError :=
  if nivel_minimo < 0 then
    (e, some (.validation "Minimum level cannot be negative"))
  else
    ({ e with nivel_minimo := nivel_minimo, atualizado_em := now }, none)

/-- `is_below_minimum()`. -/
def is_below_minimum (e : EstoqueProduto) : Bool :=
  e.quantidade_atual ≤ e.nivel_minimo

/-- `is_out_of_stock()`. -/
def is_out_of_stock (e : EstoqueProduto) : Bool :=
  e.quantidade_atual = 0

/-- `has_available_stock(quantidade)`. -/
def has_available_stock (e : EstoqueProduto) (quantidade : Int) : Bool :=
  e.quantidade_disponivel ≥ quantidade

end EstoqueProduto

/-- One call to one of the five mutators of `EstoqueProduto`, with its
integer argument and the clock value at call time. -/
inductive Mutacao where
  | adicionar (q : Int) (now : Nat)
  | remover (q : Int) (now : Nat)
  | liberar (q : Int) (now : Nat)
  | ajustar (q : Int) (now : Nat)
  | nivelMinimo (n : Int) (now : Nat)
deriving DecidableEq, Repr

/-- Dispatch one mutator call. -/
def aplicarMutacao (e : EstoqueProduto) : Mutacao → EstoqueProduto × Option DomainError
  | .adicionar q now => e.adicionar_estoque q now
  | .remover q now => e.remover_estoque q now
  | .liberar q now => e.liberar_reserva q now
  | .ajustar q now => e.ajustar_estoque q now
  | .nivelMinimo n now => e.update_minimum_level n now

/-- Run a sequence of mutator calls, stopping at the first raised
exception (whose raising call leaves the entity unchanged, as in the
source where every check precedes every assignment). -/
def aplicarMutacoes (e : EstoqueProduto) : List Mutacao → EstoqueProduto × Option DomainError
  | [] => (e, none)
  | m :: ms =>
    match aplicarMutacao e m with
    | (e2, none) => aplicarMutacoes e2 ms
    | (e2, some err) => (e2, some err)

/-- The record invariant of the claim: reserved quantity between zero
and current quantity, minimum level nonnegative. -/
abbrev Invariante (e : EstoqueProduto) : Prop :=
  0 ≤ e.quantidade_reservada ∧ e.quantidade_reservada ≤ e.quantidade_atual ∧
    0 ≤ e.nivel_minimo

theorem invariante_adicionar {e e2 : EstoqueProduto} {q : Int} {t : Nat}
    (hinv : Invariante e) (h : e.adicionar_estoque q t = (e2, none)) : Invariante e2 := by
  obtain ⟨h1, h2, h3⟩ := hinv
  unfold EstoqueProduto.adicionar_estoque at h
  split at h
  · simp at h
  · rename_i hq
    simp only [Prod.mk.injEq] at h
    obtain ⟨he, -⟩ := h
    subst he
    exact ⟨h1, by simp only; omega, h3⟩

theorem invariante_remover {e e2 : EstoqueProduto} {q : Int} {t : Nat}
    (hinv : Invariante e) (h : e.remover_estoque q t = (e2, none)) : Invariante e2 := by
  obtain ⟨h1, h2, h3⟩ := hinv
  unfold EstoqueProduto.remover_estoque at h
  split at h
  · simp at h
  · split at h
    · simp at h
    · rename_i hq hd
      simp only [EstoqueProduto.quantidade_disponivel, not_lt] at hd
      simp only [Prod.mk.injEq] at h
      obtain ⟨he, -⟩ := h
      subst he
      exact ⟨h1, by simp only; omega, h3⟩

theorem invariante_liberar {e e2 : EstoqueProduto} {q : Int} {t : Nat}
    (hinv : Invariante e) (h : e.liberar_reserva q t = (e2, none)) : Invariante e2 := by
  obtain ⟨h1, h2, h3⟩ := hinv
  unfold EstoqueProduto.liberar_reserva at h
  split at h
  · simp at h
  · split at h
    · simp at h
    · rename_i hq hr
      simp only [Prod.mk.injEq] at h
      obtain ⟨he, -⟩ := h
      subst he
      refine ⟨by simp only; omega, by simp only; omega, h3⟩

theorem invariante_ajustar {e e2 : EstoqueProduto} {q : Int} {t : Nat}
    (hinv : Invariante e) (h : e.ajustar_estoque q t = (e2, none)) : Invariante e2 := by
  obtain ⟨h1, h2, h3⟩ := hinv
  unfold EstoqueProduto.ajustar_estoque at h
  split at h
  · simp at h
  · split at h
    · simp at h
    · rename_i hq hr
      simp only [Prod.mk.injEq] at h
      obtain ⟨he, -⟩ := h
      subst he
      exact ⟨h1, by simp only; omega, h3⟩

theorem invariante_nivel {e e2 : EstoqueProduto} {n : Int} {t : Nat}
    (hinv : Invariante e) (h : e.update_minimum_level n t = (e2, none)) : Invariante e2 := by
  obtain ⟨h1, h2, h3⟩ := hinv
  unfold EstoqueProduto.update_minimum_level at h
  split at h
  · simp at h
  · rename_i hn
    simp only [Prod.mk.injEq] at h
    obtain ⟨he, -⟩ := h
    subst he
    exact ⟨h1, h2, by simp only; omega⟩

theorem invariante_aplicarMutacao {e e2 : EstoqueProduto} {m : Mutacao}
    (hinv : Invariante e) (h : aplicarMutacao e m = (e2, none)) : Invariante e2 := by
  cases m with
  | adicionar q t => exact invariante_adicionar hinv h
  | remover q t => exact invariante_remover hinv h
  | liberar q t => exact invariante_liberar hinv h
  | ajustar q t => exact invariante_ajustar hinv h
  | nivelMinimo n t => exact invariante_nivel hinv h

theorem invariante_aplicarMutacoes {e e2 : EstoqueProduto} {ms : List Mutacao}
    (hinv : Invariante e) (h : aplicarMutacoes e ms = (e2, none)) : Invariante e2 := by
  induction ms generalizing e with
  | nil =>
    unfold aplicarMutacoes at h
    simp only [Prod.mk.injEq] at h
    obtain ⟨he, -⟩ := h
    subst he
    exact hinv
  | cons m ms ih =>
    unfold aplicarMutacoes at h
    split at h
    · rename_i e3 hm
      exact ih (invariante_aplicarMutacao hinv hm) h
    · simp at h

/-- C1: `EstoqueProduto` construction raises `ValidationException`
unless `quantidade_atual ≥ 0`, `quantidade_reservada ≥ 0`,
`nivel_minimo ≥ 0` and `quantidade_reservada ≤ quantidade_atual` (and
succeeds when these hold); every successfully constructed record
satisfies the invariant `0 ≤ quantidade_reservada ≤ quantidade_atual ∧
nivel_minimo ≥ 0`; and every sequence of mutator calls
(`adicionar_estoque`, `remover_estoque`, `liberar_reserva`,
`ajustar_estoque`, `update_minimum_level`) that returns normally
preserves that invariant. -/
theorem c1_estoque_invariante (qa qr nm : Int) (um : TipoUnidadeMedida) (t : Nat)
    (ms : List Mutacao) :
    (¬ (0 ≤ qa ∧ 0 ≤ qr ∧ 0 ≤ nm ∧ qr ≤ qa) →
      ∃ msg, EstoqueProduto.init qa qr nm um t = .error (.validation msg)) ∧
    ((0 ≤ qa ∧ 0 ≤ qr ∧ 0 ≤ nm ∧ qr ≤ qa) →
      ∃ e, EstoqueProduto.init qa qr nm um t = .ok e) ∧
    (∀ e, EstoqueProduto.init qa qr nm um t = .ok e → Invariante e) ∧
    (∀ e e2, Invariante e → aplicarMutacoes e ms = (e2, none) → Invariante e2) := by
  refine ⟨?_, ?_, ?_, ?_⟩
  · intro hnot
    unfold EstoqueProduto.init
    split_ifs with h1 h2 h3 h4
    · exact ⟨_, rfl⟩
    · exact ⟨_, rfl⟩
    · exact ⟨_, rfl⟩
    · exact ⟨_, rfl⟩
    · exact absurd ⟨by omega, by omega, by omega, by omega⟩ hnot
  · rintro ⟨h1, h2, h3, h4⟩
    unfold EstoqueProduto.init
    split_ifs with g1 g2 g3 g4
    · omega
    · omega
    · omega
    · omega
    · exact ⟨_, rfl⟩
  · intro e h
    unfold EstoqueProduto.init at h
    split_ifs at h with g1 g2 g3 g4
    simp only [Except.ok.injEq] at h
    subst h
    exact ⟨by simp only; omega, by simp only; omega, by simp only; omega⟩
  · intro e e2 hinv h
    exact invariante_aplicarMutacoes hinv h

/-- Witness for C1 at a concrete run: starting from the record built by
the constructor with current 1, reserved 0, minimum 0, the sequence
add 5 / remove 2 / adjust to 7 / set minimum 3 returns normally and
ends in a state satisfying the invariant. -/
theorem c1_estoque_invariante_witness :
    Invariante ⟨7, 0, 3, TipoUnidadeMedida.UN, 4⟩ :=
  (c1_estoque_invariante 1 0 0 TipoUnidadeMedida.UN 0
      [Mutacao.adicionar 5 1, Mutacao.remover 2 2, Mutacao.ajustar 7 3,
       Mutacao.nivelMinimo 3 4]).2.2.2
    ⟨1, 0, 0, TipoUnidadeMedida.UN, 0⟩ ⟨7, 0, 3, TipoUnidadeMedida.UN, 4⟩
    (by decide) (by decide)

/-- C2: `remover_estoque(q)` on a record with current `a` and reserved
`r` raises `ValidationException` when `q ≤ 0`; raises
`BusinessRuleException` reporting the available (`a - r`) and requested
amounts when `q` exceeds the available quantity; otherwise sets
`quantidade_atual` to `a - q`, leaves `quantidade_reservada` and
`nivel_minimo` (and the unit) unchanged, and refreshes `atualizado_em`.
Every raising call leaves the record unchanged. -/
theorem c2_remover_estoque (e : EstoqueProduto) (q : Int) (t : Nat) :
    (q ≤ 0 → ∃ m, e.remover_estoque q t = (e, some (.validation m))) ∧
    (0 < q → e.quantidade_disponivel < q →
      e.remover_estoque q t = (e, some (.businessRule
        ("Insufficient available stock. Available: " ++ toString e.quantidade_disponivel ++
         ", Requested: " ++ toString q)))) ∧
    (0 < q → q ≤ e.quantidade_disponivel →
      e.remover_estoque q t =
        ({ e with quantidade_atual := e.quantidade_atual - q, atualizado_em := t }, none)) ∧
    (∀ err, (e.remover_estoque q t).2 = some err → (e.remover_estoque q t).1 = e) := by
  refine ⟨?_, ?_, ?_, ?_⟩
  · intro hq
    unfold EstoqueProduto.remover_estoque
    split_ifs
    exact ⟨_, rfl⟩
  · intro hq hd
    unfold EstoqueProduto.remover_estoque
    split_ifs with g1
    · omega
    · rfl
  · intro hq hd
    unfold EstoqueProduto.remover_estoque
    split_ifs with g1 g2
    · omega
    · omega
    · rfl
  · intro err
    unfold EstoqueProduto.remover_estoque
    split_ifs with g1 g2
    · intro; rfl
    · intro; rfl
    · simp

/-- Witness for C2 at the concrete instance of the claim: with current 10 and
reserved 4 (available 6), removing 6 succeeds leaving current 4, and
removing 7 raises the business-rule error reporting available 6,
requested 7, leaving the record unchanged. -/
theorem c2_remover_estoque_witness :
    (EstoqueProduto.remover_estoque ⟨10, 4, 0, TipoUnidadeMedida.UN, 0⟩ 6 1 =
      (⟨4, 4, 0, TipoUnidadeMedida.UN, 1⟩, none)) ∧
    (EstoqueProduto.remover_estoque ⟨10, 4, 0, TipoUnidadeMedida.UN, 0⟩ 7 1 =
      (⟨10, 4, 0, TipoUnidadeMedida.UN, 0⟩,
       some (DomainError.businessRule "Insufficient available stock. Available: 6, Requested: 7"))) := by
  constructor
  · have h := (c2_remover_estoque ⟨10, 4, 0, TipoUnidadeMedida.UN, 0⟩ 6 1).2.2.1
      (by decide) (by decide)
    rw [h]
    decide
  · have h := (c2_remover_estoque ⟨10, 4, 0, TipoUnidadeMedida.UN, 0⟩ 7 1).2.1
      (by decide) (by decide)
    rw [h]
    decide

/-- C3: `ajustar_estoque(n)` raises `ValidationException` when `n < 0`;
raises `BusinessRuleException` when `0 ≤ n` is below the reserved
quantity; otherwise sets `quantidade_atual` to exactly `n` (in either
direction) and refreshes `atualizado_em`. -/
theorem c3_ajustar_estoque (e : EstoqueProduto) (n : Int) (t : Nat) :
    (n < 0 → ∃ m, e.ajustar_estoque n t = (e, some (.validation m))) ∧
    (0 ≤ n → n < e.quantidade_reservada →
      ∃ m, e.ajustar_estoque n t = (e, some (.businessRule m))) ∧
    (0 ≤ n → e.quantidade_reservada ≤ n →
      e.ajustar_estoque n t = ({ e with quantidade_atual := n, atualizado_em := t }, none)) := by
  refine ⟨?_, ?_, ?_⟩
  · intro hn
    unfold EstoqueProduto.ajustar_estoque
    split_ifs
    exact ⟨_, rfl⟩
  · intro hn hr
    unfold EstoqueProduto.ajustar_estoque
    split_ifs with g1
    · omega
    · exact ⟨_, rfl⟩
  · intro hn hr
    unfold EstoqueProduto.ajustar_estoque
    split_ifs with g1 g2
    · omega
    · omega
    · rfl

/-- Witness for C3 at the concrete instance of the claim: with reserved 5,
adjusting to 3 raises a business-rule error and adjusting to 5 succeeds
setting the current quantity to 5. -/
theorem c3_ajustar_estoque_witness :
    (∃ m, EstoqueProduto.ajustar_estoque ⟨10, 5, 0, TipoUnidadeMedida.UN, 0⟩ 3 1 =
      (⟨10, 5, 0, TipoUnidadeMedida.UN, 0⟩, some (DomainError.businessRule m))) ∧
    (EstoqueProduto.ajustar_estoque ⟨10, 5, 0, TipoUnidadeMedida.UN, 0⟩ 5 1 =
      (⟨5, 5, 0, TipoUnidadeMedida.UN, 1⟩, none)) := by
  constructor
  · exact (c3_ajustar_estoque ⟨10, 5, 0, TipoUnidadeMedida.UN, 0⟩ 3 1).2.1
      (by decide) (by decide)
  · have h := (c3_ajustar_estoque ⟨10, 5, 0, TipoUnidadeMedida.UN, 0⟩ 5 1).2.2
      (by decide) (by decide)
    rw [h]

/-- `AcaoPermissao` enumeration from
`src/identidade/domain/value_objects/permissao.py` (string values
"read", "write", "delete", "*"). -/
inductive AcaoPermissao where
  | read | write | delete | admin
deriving DecidableEq, Repr

/-- String value of each action (the Python enum member value). -/
def AcaoPermissao.value : AcaoPermissao → String
  | .read => "read"
  | .write => "write"
  | .delete => "delete"
  | .admin => "*"

/-- `RecursoPermissao` enumeration from the same module. -/
inductive RecursoPermissao where
  | produtos | estoque | movimentacoes | relatorios | usuarios | admin
deriving DecidableEq, Repr

/-- String value of each resource (the Python enum member value). -/
def RecursoPermissao.value : RecursoPermissao → String
  | .produtos => "produtos"
  | .estoque => "estoque"
  | .movimentacoes => "movimentacoes"
  | .relatorios => "relatorios"
  | .usuarios => "usuarios"
  | .admin => "admin"

/-- The `Permissao` value object: a validated `(recurso, acao)` pair. -/
structure Permissao where
  recurso : RecursoPermissao
  acao : AcaoPermissao
deriving DecidableEq, Repr

namespace Permissao

/-- `Permissao.to_string`: the `"resource:action"` string form. -/
def to_string (p : Permissao) : String :=
  p.recurso.value ++ ":" ++ p.acao.value

/-- `Permissao.can_access(required_permission)`, with the four
checks in order (the second check is subsumed by the first, as in the
source). -/
def can_access (p required_permission : Permissao) : Bool :=
  if p.acao = AcaoPermissao.admin then true
  else if p.recurso = RecursoPermissao.admin ∧ p.acao = AcaoPermissao.admin then true
  else if p.recurso = required_permission.recurso ∧ p.acao = required_permission.acao then
    true
  else if p.recurso = required_permission.recurso ∧ p.acao = AcaoPermissao.admin then true
  else false

end Permissao

/-- C4: `p.can_access(r)` is true exactly when the action of `p` is `*`, or
resource and action both match, or the resource matches and the action of `p`
is `*`; in particular `admin:*` can access everything,
`estoque:read` cannot access `estoque:write`, and `estoque:*` can
access `estoque:read`. -/
theorem c4_can_access (p r : Permissao) :
    (p.can_access r = true ↔
      p.acao = AcaoPermissao.admin ∨
      (p.recurso = r.recurso ∧ p.acao = r.acao) ∨
      (p.recurso = r.recurso ∧ p.acao = AcaoPermissao.admin)) ∧
    (Permissao.mk RecursoPermissao.admin AcaoPermissao.admin).can_access r = true ∧
    (Permissao.mk RecursoPermissao.estoque AcaoPermissao.read).can_access
      (Permissao.mk RecursoPermissao.estoque AcaoPermissao.write) = false ∧
    (Permissao.mk RecursoPermissao.estoque AcaoPermissao.admin).can_access
      (Permissao.mk RecursoPermissao.estoque AcaoPermissao.read) = true := by
  obtain ⟨pr, pa⟩ := p
  obtain ⟨rr, ra⟩ := r
  refine ⟨?_, ?_, by decide, by decide⟩
  · cases pr <;> cases pa <;> cases rr <;> cases ra <;> decide
  · cases rr <;> cases ra <;> decide

/-- Witness for C4: the characterization applied at a concrete pair. -/
theorem c4_can_access_witness :
    (Permissao.mk RecursoPermissao.admin AcaoPermissao.admin).can_access
      (Permissao.mk RecursoPermissao.produtos AcaoPermissao.read) = true :=
  (c4_can_access (Permissao.mk RecursoPermissao.admin AcaoPermissao.admin)
    (Permissao.mk RecursoPermissao.produtos AcaoPermissao.read)).2.1

/-- The `Usuario` aggregate of
`src/identidade/domain/entities/usuario.py` (identifier and timestamps
omitted; `senha_hash` is `none` until a password is set). -/
structure Usuario where
  email : String
  nome : String
  senha_hash : Option String
  permissoes : List Permissao
  ativo : Bool
deriving DecidableEq, Repr

/-- An HTTP error raised by a FastAPI dependency: status code and
detail message. -/
structure HTTPErro where
  status_code : Nat
  detail : String
deriving DecidableEq, Repr

/-- The inner `check_permission` dependency produced by
`require_permission(permission)` in `src/api/dependencies.py`, applied
to an already-resolved active user: compares the required permission
string against the permission strings of the user with no wildcard
expansion, admitting the exact string or the literal `"admin:*"`. -/
def check_permission (permission : String) (current_user : Usuario) :
    Except HTTPErro Usuario :=
  let user_permissions := current_user.permissoes.map Permissao.to_string
  if permission ∉ user_permissions ∧ "admin:*" ∉ user_permissions then
    .error ⟨403, "Permission required: " ++ permission⟩
  else
    .ok current_user

/-- C5: the dependency produced by `require_permission(P)` admits the
resolved active user exactly when `P` is literally among the held
permission strings or `"admin:*"` is; otherwise it fails with HTTP 403
and detail `"Permission required: P"`.  No wildcard expansion is
applied: a user holding only `estoque:*` is rejected for
`estoque:write`. -/
theorem c5_require_permission (permission : String) (u : Usuario) :
    (check_permission permission u = .ok u ↔
      permission ∈ u.permissoes.map Permissao.to_string ∨
      "admin:*" ∈ u.permissoes.map Permissao.to_string) ∧
    (permission ∉ u.permissoes.map Permissao.to_string →
      "admin:*" ∉ u.permissoes.map Permissao.to_string →
      check_permission permission u =
        .error ⟨403, "Permission required: " ++ permission⟩) ∧
    (check_permission "estoque:write"
      (Usuario.mk "u@x.com" "U" none [Permissao.mk RecursoPermissao.estoque AcaoPermissao.admin] true) =
      .error ⟨403, "Permission required: estoque:write"⟩) := by
  refine ⟨?_, ?_, by decide⟩
  · simp only [check_permission]
    split_ifs with hg
    · refine iff_of_false (by simp) ?_
      rintro (h | h)
      · exact hg.1 h
      · exact hg.2 h
    · refine iff_of_true rfl ?_
      by_contra hc
      push_neg at hc
      exact hg ⟨hc.1, hc.2⟩
  · intro h1 h2
    simp only [check_permission]
    split_ifs with hg
    · rfl
    · exact absurd ⟨h1, h2⟩ hg

/-- Witness for C5: a user holding exactly `usuarios:read` is admitted
for `usuarios:read` and rejected (403) for `usuarios:write`. -/
theorem c5_require_permission_witness :
    check_permission "usuarios:write"
      (Usuario.mk "a@b.com" "A" none [Permissao.mk RecursoPermissao.usuarios AcaoPermissao.read] true) =
      .error ⟨403, "Permission required: usuarios:write"⟩ :=
  (c5_require_permission "usuarios:write"
      (Usuario.mk "a@b.com" "A" none [Permissao.mk RecursoPermissao.usuarios AcaoPermissao.read] true)).2.1
    (by decide) (by decide)

namespace Usuario

/-- `Usuario.verify_password(senha)`: false when no (or an empty) hash
is stored; otherwise the bcrypt verification routine, abstracted as the
oracle `pwdVerify senha hash`. -/
def verify_password (u : Usuario) (senha : String)
    (pwdVerify : String → String → Bool) : Bool :=
  match u.senha_hash with
  | none => false
  | some h => if h = "" then false else pwdVerify senha h

end Usuario

/-- `AuthApplicationService.login` from
`src/identidade/application/services/auth_application_service.py`: the
repository lookup by email is passed in as `lookup` and bcrypt
verification as the oracle `pwdVerify`; the checks are in source order
(absent user, inactive account, failed verification).  Token issuance on
success is external (JWT signing) and is abstracted to `.ok ()`. -/
def AuthApplicationService.login (lookup : Option Usuario) (senha : String)
    (pwdVerify : String → String → Bool) : Except DomainError Unit :=
  match lookup with
  | none => .error (.validation "Invalid email or password")
  | some user =>
    if user.ativo = false then
      .error (.businessRule "User account is deactivated")
    else if user.verify_password senha pwdVerify = false then
      .error (.validation "Invalid email or password")
    else
      .ok ()

/-- C6: login fails with the identical
`ValidationException "Invalid email or password"` both when no user
exists with the given email and when the user exists, is active, and
password verification fails — the two causes are indistinguishable —
while an inactive account found by email fails with
`BusinessRuleException` instead. -/
theorem c6_login_indistinguivel (lookup : Option Usuario) (senha : String)
    (pv : String → String → Bool) :
    (lookup = none →
      AuthApplicationService.login lookup senha pv =
        .error (.validation "Invalid email or password")) ∧
    (∀ u, lookup = some u → u.ativo = true → u.verify_password senha pv = false →
      AuthApplicationService.login lookup senha pv =
        .error (.validation "Invalid email or password")) ∧
    (∀ u, lookup = some u → u.ativo = false →
      AuthApplicationService.login lookup senha pv =
        .error (.businessRule "User account is deactivated")) := by
  refine ⟨?_, ?_, ?_⟩
  · intro h
    subst h
    rfl
  · intro u h hat hv
    subst h
    simp only [AuthApplicationService.login, hat, hv]
    rfl
  · intro u h hat
    subst h
    simp only [AuthApplicationService.login, hat]
    rfl

/-- Witness for C6: an unknown email and a wrong password on an active
account produce the same error value, and an inactive account produces
the distinct business-rule error. -/
theorem c6_login_indistinguivel_witness :
    (AuthApplicationService.login none "pw" (fun _ _ => false) =
      .error (.validation "Invalid email or password")) ∧
    (AuthApplicationService.login
        (some (Usuario.mk "a@b.com" "A" (some "hash") [] true)) "pw" (fun _ _ => false) =
      .error (.validation "Invalid email or password")) ∧
    (AuthApplicationService.login
        (some (Usuario.mk "a@b.com" "A" (some "hash") [] false)) "pw" (fun _ _ => false) =
      .error (.businessRule "User account is deactivated")) :=
  ⟨(c6_login_indistinguivel none "pw" (fun _ _ => false)).1 rfl,
   (c6_login_indistinguivel (some (Usuario.mk "a@b.com" "A" (some "hash") [] true)) "pw"
      (fun _ _ => false)).2.1 (Usuario.mk "a@b.com" "A" (some "hash") [] true) rfl rfl
      (by decide),
   (c6_login_indistinguivel (some (Usuario.mk "a@b.com" "A" (some "hash") [] false)) "pw"
      (fun _ _ => false)).2.2 (Usuario.mk "a@b.com" "A" (some "hash") [] false) rfl rfl⟩

/-- The code (Python enum value) of each unit of measure, used in the
unit-mismatch error message (`UnidadeMedida.__str__` returns it). -/
def TipoUnidadeMedida.codigo : TipoUnidadeMedida → String
  | .UN => "UN"
  | .KG => "KG"
  | .G => "G"
  | .L => "L"
  | .ML => "ML"
  | .M => "M"
  | .CM => "CM"
  | .M2 => "M2"
  | .M3 => "M3"
  | .CX => "CX"
  | .PCT => "PCT"
  | .FD => "FD"

/-- The `Produto` aggregate of
`src/produto/domain/entities/produto.py` (identifier and timestamps
omitted; `sku` holds the normalized SKU code). -/
structure Produto where
  sku : String
  nome : String
  descricao : String
  categoria : String
  unidade_medida : TipoUnidadeMedida
  nivel_minimo : Int
  ativo : Bool
deriving DecidableEq, Repr

/-- `EstoqueService.validar_movimentacao_estoque` from
`src/estoque/domain/services/estoque_service.py`: the four checks in
source order, returning the first raised `BusinessRuleException`, or
`none` when the movement is valid. -/
def EstoqueService.validar_movimentacao_estoque (estoque : EstoqueProduto)
    (produto : Produto) (quantidade : Int) (tipo_operacao : String) :
    Option DomainError :=
  if produto.ativo = false then
    some (.businessRule ("Cannot move stock for inactive product: " ++ produto.sku))
  else if estoque.unidade_medida ≠ produto.unidade_medida then
    some (.businessRule ("Unit mismatch between product and inventory: " ++
      produto.unidade_medida.codigo ++ " vs " ++ estoque.unidade_medida.codigo))
  else if quantidade ≤ 0 then
    some (.businessRule "Movement quantity must be positive")
  else if tipo_operacao = "saida" ∨ tipo_operacao = "remover" then
    if estoque.has_available_stock quantidade = false then
      some (.businessRule ("Insufficient stock for " ++ produto.sku ++ ". Available: " ++
        toString estoque.quantidade_disponivel ++ ", Requested: " ++ toString quantidade))
    else
      none
  else
    none

/-- C7: `validar_movimentacao_estoque` checks, in order: product
active, unit match, positive quantity, and — only for the outgoing
types `"saida"`/`"remover"` — sufficient available quantity; it raises
`BusinessRuleException` at the first violated condition and returns
without raising when all applicable conditions hold (in particular for
every inbound `"entrada"` movement of positive quantity on an active,
unit-matching product). -/
theorem c7_validar_movimentacao (e : EstoqueProduto) (p : Produto) (q : Int)
    (tipo : String) :
    (p.ativo = false →
      ∃ m, EstoqueService.validar_movimentacao_estoque e p q tipo =
        some (.businessRule m)) ∧
    (p.ativo = true → e.unidade_medida ≠ p.unidade_medida →
      ∃ m, EstoqueService.validar_movimentacao_estoque e p q tipo =
        some (.businessRule m)) ∧
    (p.ativo = true → e.unidade_medida = p.unidade_medida → q ≤ 0 →
      EstoqueService.validar_movimentacao_estoque e p q tipo =
        some (.businessRule "Movement quantity must be positive")) ∧
    (p.ativo = true → e.unidade_medida = p.unidade_medida → 0 < q →
      (tipo = "saida" ∨ tipo = "remover") → e.quantidade_disponivel < q →
      ∃ m, EstoqueService.validar_movimentacao_estoque e p q tipo =
        some (.businessRule m)) ∧
    (p.ativo = true → e.unidade_medida = p.unidade_medida → 0 < q →
      (tipo = "saida" ∨ tipo = "remover") → q ≤ e.quantidade_disponivel →
      EstoqueService.validar_movimentacao_estoque e p q tipo = none) ∧
    (p.ativo = true → e.unidade_medida = p.unidade_medida → 0 < q →
      tipo ≠ "saida" → tipo ≠ "remover" →
      EstoqueService.validar_movimentacao_estoque e p q tipo = none) := by
  refine ⟨?_, ?_, ?_, ?_, ?_, ?_⟩
  · intro ha
    unfold EstoqueService.validar_movimentacao_estoque
    rw [if_pos ha]
    exact ⟨_, rfl⟩
  · intro ha hu
    unfold EstoqueService.validar_movimentacao_estoque
    rw [if_neg (by simp [ha]), if_pos hu]
    exact ⟨_, rfl⟩
  · intro ha hu hq
    unfold EstoqueService.validar_movimentacao_estoque
    rw [if_neg (by simp [ha]), if_neg (by simp [hu]), if_pos hq]
  · intro ha hu hq ht hd
    simp only [EstoqueProduto.quantidade_disponivel] at hd
    unfold EstoqueService.validar_movimentacao_estoque
    rw [if_neg (by simp [ha]), if_neg (by simp [hu]), if_neg (by omega), if_pos ht,
      if_pos (show EstoqueProduto.has_available_stock e q = false by
        simp [EstoqueProduto.has_available_stock, EstoqueProduto.quantidade_disponivel]
        omega)]
    exact ⟨_, rfl⟩
  · intro ha hu hq ht hd
    simp only [EstoqueProduto.quantidade_disponivel] at hd
    unfold EstoqueService.validar_movimentacao_estoque
    rw [if_neg (by simp [ha]), if_neg (by simp [hu]), if_neg (by omega), if_pos ht,
      if_neg (show ¬ EstoqueProduto.has_available_stock e q = false by
        simp [EstoqueProduto.has_available_stock, EstoqueProduto.quantidade_disponivel]
        omega)]
  · intro ha hu hq hs hr
    unfold EstoqueService.validar_movimentacao_estoque
    rw [if_neg (by simp [ha]), if_neg (by simp [hu]), if_neg (by omega),
      if_neg (by simp [hs, hr])]

/-- Witness for C7: a valid outgoing movement within bounds passes; it
is applied at a concrete record with available 6, product active and
unit-matching, moving 5 out. -/
theorem c7_validar_movimentacao_witness :
    EstoqueService.validar_movimentacao_estoque
      ⟨10, 4, 0, TipoUnidadeMedida.UN, 0⟩
      (Produto.mk "SKU-1" "P" "" "cat" TipoUnidadeMedida.UN 0 true) 5 "saida" = none :=
  (c7_validar_movimentacao ⟨10, 4, 0, TipoUnidadeMedida.UN, 0⟩
      (Produto.mk "SKU-1" "P" "" "cat" TipoUnidadeMedida.UN 0 true) 5 "saida").2.2.2.2.1
    rfl rfl (by decide) (Or.inl rfl) (by decide)

/-- Python `str.strip()` as used on SKU codes: drop whitespace from
both ends, modelled over the character list. -/
def pyStrip (s : String) : String :=
  String.mk (((s.data.dropWhile Char.isWhitespace).reverse.dropWhile
    Char.isWhitespace).reverse)

/-- Python `str.upper()` as used on SKU codes (character-wise
upper-casing). -/
def pyUpper (s : String) : String :=
  String.mk (s.data.map Char.toUpper)

namespace SKU

/-- One character of the class `[A-Z0-9\-]`. -/
def isSkuChar (c : Char) : Bool :=
  (decide ('A' ≤ c) && decide (c ≤ 'Z')) ||
    (decide ('0' ≤ c) && decide (c ≤ '9')) || decide (c = '-')

/-- `SKU.SKU_PATTERN.match(codigo)`: the anchored regex
`^[A-Z0-9\-]{1,50}$`, i.e. length between 1 and 50 with every character
in the class. -/
def pattern_match (c : String) : Bool :=
  decide (1 ≤ c.data.length) && decide (c.data.length ≤ 50) &&
    c.data.all isSkuChar

/-- `SKU.__init__` from `src/estoque/domain/value_objects/sku.py`:
empty input is rejected, then the code is stripped and upper-cased and
matched against the pattern; the normalized code is returned. -/
def init (codigo : String) : Except DomainError String :=
  if codigo = "" then
    .error (.validation "SKU cannot be empty")
  else
    let c := pyUpper (pyStrip codigo)
    if pattern_match c then
      .ok c
    else
      .error (.validation ("Invalid SKU format: " ++ c ++
        ". Must contain only letters, numbers and hyphens (max 50 chars)"))

end SKU

/-- C8: constructing a SKU trims and upper-cases the input, succeeds
exactly when the normalized code matches `^[A-Z0-9\-]{1,50}$`, and
raises `ValidationException` otherwise (including for empty input and
codes longer than 50 characters). -/
theorem c8_sku (s : String) :
    (∀ c, SKU.init s = .ok c → c = pyUpper (pyStrip s)) ∧
    ((∃ c, SKU.init s = .ok c) ↔ SKU.pattern_match (pyUpper (pyStrip s)) = true) ∧
    (SKU.pattern_match (pyUpper (pyStrip s)) = false →
      ∃ m, SKU.init s = .error (.validation m)) := by
  refine ⟨?_, ?_, ?_⟩
  · intro c h
    simp only [SKU.init] at h
    split_ifs at h with h1 h2
    simp only [Except.ok.injEq] at h
    exact h.symm
  · constructor
    · rintro ⟨c, h⟩
      simp only [SKU.init] at h
      split_ifs at h with h1 h2
      exact h2
    · intro hp
      by_cases h1 : s = ""
      · subst h1
        exact absurd hp (by decide)
      · refine ⟨pyUpper (pyStrip s), ?_⟩
        simp only [SKU.init]
        rw [if_neg h1, if_pos hp]
  · intro hp
    simp only [SKU.init]
    split_ifs with h1 h2
    · exact ⟨_, rfl⟩
    · rw [h2] at hp
      cases hp
    · exact ⟨_, rfl⟩

/-- Witness for C8 at the concrete instances of the claim: `" ab-12 "`
normalizes to `"AB-12"` and succeeds; `"bad sku!"` fails its pattern
and raises a validation error. -/
theorem c8_sku_witness :
    (SKU.init " ab-12 " = .ok "AB-12") ∧
    (SKU.pattern_match (pyUpper (pyStrip "bad sku!")) = false) ∧
    (∃ m, SKU.init "bad sku!" = .error (.validation m)) := by
  refine ⟨?_, by decide, (c8_sku "bad sku!").2.2 (by decide)⟩
  obtain ⟨c, hc⟩ := (c8_sku " ab-12 ").2.1.mpr (by decide)
  have he := (c8_sku " ab-12 ").1 c hc
  subst he
  rw [hc]
  decide

/-- The `page` field computed by `UsuarioApplicationService.get_users`:
`skip // limit + 1 if limit > 0 else 1` (Python floor division). -/
def UsuarioApplicationService.get_users_page (skip limit : Int) : Int :=
  if limit > 0 then Int.fdiv skip limit + 1 else 1

/-- The `page` field computed by
`ProdutoApplicationService.get_products`, same guarded expression. -/
def ProdutoApplicationService.get_products_page (skip limit : Int) : Int :=
  if limit > 0 then Int.fdiv skip limit + 1 else 1

/-- The `page` field computed by
`EstoqueApplicationService.get_all_inventory`, same guarded
expression. -/
def EstoqueApplicationService.get_all_inventory_page (skip limit : Int) : Int :=
  if limit > 0 then Int.fdiv skip limit + 1 else 1

/-- C9: in all three paginated listings the returned `page` equals
`skip // limit + 1` (floor division) when `limit > 0` and equals `1`
when `limit = 0` (the division is guarded, so no division error); in
particular `skip = 40, limit = 20` yields page 3. -/
theorem c9_pagination (skip limit : Int) (_hs : 0 ≤ skip) (hl : 0 ≤ limit) :
    (0 < limit →
      UsuarioApplicationService.get_users_page skip limit = Int.fdiv skip limit + 1 ∧
      ProdutoApplicationService.get_products_page skip limit = Int.fdiv skip limit + 1 ∧
      EstoqueApplicationService.get_all_inventory_page skip limit =
        Int.fdiv skip limit + 1) ∧
    (limit = 0 →
      UsuarioApplicationService.get_users_page skip limit = 1 ∧
      ProdutoApplicationService.get_products_page skip limit = 1 ∧
      EstoqueApplicationService.get_all_inventory_page skip limit = 1) ∧
    UsuarioApplicationService.get_users_page 40 20 = 3 ∧
    ProdutoApplicationService.get_products_page 40 20 = 3 ∧
    EstoqueApplicationService.get_all_inventory_page 40 20 = 3 := by
  refine ⟨?_, ?_, by decide, by decide, by decide⟩
  · intro h
    unfold UsuarioApplicationService.get_users_page
      ProdutoApplicationService.get_products_page
      EstoqueApplicationService.get_all_inventory_page
    rw [if_pos h]
    exact ⟨rfl, rfl, rfl⟩
  · intro h
    subst h
    unfold UsuarioApplicationService.get_users_page
      ProdutoApplicationService.get_products_page
      EstoqueApplicationService.get_all_inventory_page
    norm_num

/-- Witness for C9 at the instance of the claim: skip 40, limit 20 gives
page 3, and limit 0 gives page 1. -/
theorem c9_pagination_witness :
    UsuarioApplicationService.get_users_page 40 20 = 3 ∧
    UsuarioApplicationService.get_users_page 40 0 = 1 :=
  ⟨(c9_pagination 40 20 (by decide) (by decide)).2.2.1,
   ((c9_pagination 40 0 (by decide) (by decide)).2.1 rfl).1⟩

/-- `EstoqueCreateDTO` from
`src/estoque/application/dto/estoque_dto.py` (the `produto_id` field is
carried by the lookups instead; every integer field has a `ge=0`
pydantic constraint and default 0). -/
structure EstoqueCreateDTO where
  quantidade_atual : Int
  quantidade_reservada : Int
  nivel_minimo : Int
  unidade_medida : TipoUnidadeMedida
deriving DecidableEq, Repr

/-- `EstoqueApplicationService.create_inventory`: the repository
lookups are passed in as `product` (product by id) and `existing`
(inventory record by product id); a raised exception rolls the
transaction back and re-raises, modelled by the `.error` result (no
record is produced).  The not-found messages carry the product id in
the source, omitted here. -/
def EstoqueApplicationService.create_inventory (product : Option Produto)
    (existing : Option EstoqueProduto) (create_dto : EstoqueCreateDTO) (now : Nat) :
    Except DomainError EstoqueProduto :=
  match product with
  | none => .error (.businessRule "Product not found")
  | some produto =>
    match existing with
    | some _ => .error (.businessRule "Inventory already exists for product")
    | none =>
      match EstoqueProduto.init create_dto.quantidade_atual
          create_dto.quantidade_reservada create_dto.nivel_minimo
          create_dto.unidade_medida now with
      | .error err => .error err
      | .ok inventory =>
        match EstoqueService.validar_movimentacao_estoque inventory produto
            create_dto.quantidade_atual "entrada" with
        | some err => .error err
        | none => .ok inventory

/-- C10 (amended): with a zero initial quantity the inventory-creation
use case can never succeed — for every product lookup result and every
DTO with `quantidade_atual = 0` passing the `ge=0` field constraints,
`create_inventory` returns an error (so a record is only ever created
with a strictly positive initial quantity); and in the scenario of the claim
(product exists, is active, units match, no existing record) with the
DTO default `quantidade_reservada = 0`, the error is precisely
`BusinessRuleException "Movement quantity must be positive"` from the
`"entrada"` validation. -/
theorem c10_create_inventory_zero (p : Produto) (dto : EstoqueCreateDTO) (now : Nat)
    (h0 : dto.quantidade_atual = 0) :
    (∀ e, EstoqueApplicationService.create_inventory (some p) none dto now ≠ .ok e) ∧
    (dto.quantidade_reservada = 0 → 0 ≤ dto.nivel_minimo → p.ativo = true →
      dto.unidade_medida = p.unidade_medida →
      EstoqueApplicationService.create_inventory (some p) none dto now =
        .error (.businessRule "Movement quantity must be positive")) := by
  constructor
  · intro e h
    simp only [EstoqueApplicationService.create_inventory] at h
    split at h
    · simp at h
    · split at h
      · simp at h
      · rename_i inventory hinit heq
        simp only [EstoqueService.validar_movimentacao_estoque, h0] at heq
        split_ifs at heq with g1 g2 g3
        all_goals omega
  · intro hr hn ha hum
    have hinit : EstoqueProduto.init dto.quantidade_atual dto.quantidade_reservada
        dto.nivel_minimo dto.unidade_medida now =
        .ok ⟨dto.quantidade_atual, dto.quantidade_reservada, dto.nivel_minimo,
          dto.unidade_medida, now⟩ := by
      unfold EstoqueProduto.init
      rw [if_neg (by omega), if_neg (by omega), if_neg (by omega), if_neg (by omega)]
    have hval : EstoqueService.validar_movimentacao_estoque
        ⟨dto.quantidade_atual, dto.quantidade_reservada, dto.nivel_minimo,
          dto.unidade_medida, now⟩ p dto.quantidade_atual "entrada" =
        some (.businessRule "Movement quantity must be positive") := by
      unfold EstoqueService.validar_movimentacao_estoque
      rw [if_neg (by simp [ha]), if_neg (by simp [hum]), if_pos (by omega)]
    simp only [EstoqueApplicationService.create_inventory, hinit, hval]

/-- Witness for the amended C10 at a concrete input: an active
product with matching unit, no existing record, and the all-defaults
DTO (quantities 0) yields exactly the positive-quantity business-rule
error. -/
theorem c10_create_inventory_zero_witness :
    EstoqueApplicationService.create_inventory
      (some (Produto.mk "SKU-1" "P" "" "cat" TipoUnidadeMedida.UN 0 true)) none
      (EstoqueCreateDTO.mk 0 0 0 TipoUnidadeMedida.UN) 0 =
      .error (.businessRule "Movement quantity must be positive") :=
  (c10_create_inventory_zero (Produto.mk "SKU-1" "P" "" "cat" TipoUnidadeMedida.UN 0 true)
      (EstoqueCreateDTO.mk 0 0 0 TipoUnidadeMedida.UN) 0 rfl).2 rfl (by decide) rfl rfl

/-- Counterexample to C10 as stated: the DTO with `quantidade_atual = 0`
and `quantidade_reservada = 1` passes the `ge=0` field constraints, the
product exists, is active, the units match and no record exists, yet
the failure is the entity-constructor error
`ValidationException "Reserved quantity cannot exceed current quantity"`,
not the BusinessRuleException of the claimed `"entrada"` validation. -/
theorem c10_counterexample :
    EstoqueApplicationService.create_inventory
        (some (Produto.mk "SKU-1" "P" "" "cat" TipoUnidadeMedida.UN 0 true)) none
        (EstoqueCreateDTO.mk 0 1 0 TipoUnidadeMedida.UN) 0 =
      .error (.validation "Reserved quantity cannot exceed current quantity") ∧
    EstoqueApplicationService.create_inventory
        (some (Produto.mk "SKU-1" "P" "" "cat" TipoUnidadeMedida.UN 0 true)) none
        (EstoqueCreateDTO.mk 0 1 0 TipoUnidadeMedida.UN) 0 ≠
      .error (.businessRule "Movement quantity must be positive") := by
  constructor
  · decide
  · decide
